import Mathlib

/-!
Shallow embedding of `src/code_assistant.py` (the LLM-mediated file
transformation pipeline): the Ollama gateway `ask_llm`, the project
summarizer `_summarise_python_file`, and the CLI commands `describe`,
`change`, `fix` and `enhance`.

External effects are made explicit:
  * the filesystem is an association list from absolute path to text
    (`readFile` models `Path.read_text`, `writeFile` models
    `Path.write_text`, which creates or fully overwrites);
  * the Ollama backend (`ollama.generate`) is a parameter of type
    `Backend`: given a model identifier and a prompt it either returns
    the response dictionary's optional `response` field or raises,
    modelled as `Except` with the exception's text;
  * the Python `ast` parser is a parameter of type `PyParser` producing
    an abstract syntax tree (`PyModule`) or failing;
  * `click.confirm`/`click.echo` are modelled by recording, in the run
    record of each command, whether a confirmation was requested (and
    with which default), what was displayed, and the collaborator's
    answer is a `Bool` parameter.
-/

namespace CodeForge

/-- The filesystem: a finite map from absolute path to file text,
as an association list (first matching entry wins). -/
abbrev FS := List (String × String)

/-- `Path.read_text`: the text of the file at `p`, or `none` when no such
file exists (in Python this raises; call sites either check `exists()`
first or catch the exception). -/
def readFile (fs : FS) (p : String) : Option String :=
  (fs.find? (fun e => e.1 = p)).map (fun e => e.2)

/-- `Path.write_text`: create the file at `p` or overwrite its entire
content with `t`. -/
def writeFile (fs : FS) (p t : String) : FS :=
  (p, t) :: fs.filter (fun e => ¬ e.1 = p)

/-- The Ollama backend `ollama.generate(model=model, prompt=prompt)`:
either the response dictionary's optional `response` field (`none` when
the backend returns no generated text), or a raised exception carried as
its descriptive text. -/
abbrev Backend := String → String → Except String (Option String)

/-- `ask_llm` (src/code_assistant.py lines 9–15): send `prompt` to the
model and return the response text; `response.get("response", "")`
defaults missing text to `""`; any exception is caught and rendered as
an error string. Total: failures are values, never raised. -/
def ask_llm (backend : Backend) (prompt model : String) : String :=
  match backend model prompt with
  | .ok r => r.getD ""
  | .error exc => "Error communicating with Ollama: " ++ exc

/-! ### Prompt builders

The literal prompt texts of `change` (lines 91–96), `fix` (117–120) and
`enhance` (142–147), split into their fixed framing parts around the
embedded file content. -/

/-- Opening framing of the `change` prompt. -/
def changeIntro (instruction : String) : String :=
  "Modify the following Python file according to this instruction: "
    ++ instruction ++ ".\n\n"

/-- Closing directive of the `change` prompt. -/
def changeClosing : String :=
  "\n---\nReturn only the full modified file."

/-- The full `change` prompt (lines 91–96). -/
def change_prompt (instruction content : String) : String :=
  changeIntro instruction ++ content ++ changeClosing

/-- Opening framing of the `fix` prompt; `fix` has no closing directive. -/
def fixIntro : String :=
  "Identify and fix bugs in the following Python file. Return the corrected file only.\n\n"

/-- The full `fix` prompt (lines 117–120). -/
def fix_prompt (content : String) : String :=
  fixIntro ++ content

/-- Opening framing of the `enhance` prompt. -/
def enhanceIntro (feature : String) : String :=
  "Enhance the following Python file with this feature: "
    ++ feature ++ ".\n\n"

/-- Closing directive of the `enhance` prompt. -/
def enhanceClosing : String :=
  "\n---\nReturn only the full enhanced file."

/-- The full `enhance` prompt (lines 142–147). -/
def enhance_prompt (feature content : String) : String :=
  enhanceIntro feature ++ content ++ enhanceClosing

/-! ### Transform commands (`change`, `fix`, `enhance`)

Each command is embedded as a pure function from the explicit effects'
inputs (backend, filesystem, resolved project root from the CLI context,
file argument, model identifier, collaborator's confirmation answer) to
a `Run` record of everything observable: how many model calls were made,
which prompt was sent, what was displayed via `click.echo`, whether
`click.confirm` was invoked and with which default answer, the command's
outcome, and the resulting filesystem. `click.BadParameter` is the
`Except.error` outcome. -/

/-- Terminal outcome of a transform command: the file was overwritten
("File updated.") or left alone ("No changes made."). -/
inductive Outcome where
  | applied
  | discarded
deriving DecidableEq, Repr

/-- Observable trace of one transform-command execution. `confirmAsked`
is `none` when `click.confirm` was never reached, and `some d` when a
confirmation was requested with default answer `d`. -/
structure Run where
  modelCalls : Nat
  promptSent : Option String
  displayed : List String
  confirmAsked : Option Bool
  outcome : Except String Outcome
  fs : FS

/-- The `change` command (lines 79–104): resolve `root/file`, reject with
`BadParameter` when it does not exist, otherwise read it, build the
prompt, call the model once, display the result, and ask for
confirmation (default `False`); on yes overwrite the file, on no leave
it untouched. -/
def change (backend : Backend) (fs : FS) (root file instruction model : String)
    (confirm : Bool) : Run :=
  let path := root ++ "/" ++ file
  match readFile fs path with
  | none =>
      { modelCalls := 0, promptSent := none, displayed := [],
        confirmAsked := none,
        outcome := .error (file ++ " does not exist"), fs := fs }
  | some content =>
      let prompt := change_prompt instruction content
      let new_content := ask_llm backend prompt model
      if confirm then
        { modelCalls := 1, promptSent := some prompt,
          displayed := ["\nGenerated change:\n", new_content, "File updated."],
          confirmAsked := some false, outcome := .ok .applied,
          fs := writeFile fs path new_content }
      else
        { modelCalls := 1, promptSent := some prompt,
          displayed := ["\nGenerated change:\n", new_content, "No changes made."],
          confirmAsked := some false, outcome := .ok .discarded, fs := fs }

/-- The `fix` command (lines 107–128): same flow as `change` with the
bug-fixing prompt and no instruction argument. -/
def fix (backend : Backend) (fs : FS) (root file model : String)
    (confirm : Bool) : Run :=
  let path := root ++ "/" ++ file
  match readFile fs path with
  | none =>
      { modelCalls := 0, promptSent := none, displayed := [],
        confirmAsked := none,
        outcome := .error (file ++ " does not exist"), fs := fs }
  | some content =>
      let prompt := fix_prompt content
      let new_content := ask_llm backend prompt model
      if confirm then
        { modelCalls := 1, promptSent := some prompt,
          displayed := ["\nSuggested fixes:\n", new_content, "File updated."],
          confirmAsked := some false, outcome := .ok .applied,
          fs := writeFile fs path new_content }
      else
        { modelCalls := 1, promptSent := some prompt,
          displayed := ["\nSuggested fixes:\n", new_content, "No changes made."],
          confirmAsked := some false, outcome := .ok .discarded, fs := fs }

/-- The `enhance` command (lines 131–155): same flow as `change` with the
feature prompt. -/
def enhance (backend : Backend) (fs : FS) (root file feature model : String)
    (confirm : Bool) : Run :=
  let path := root ++ "/" ++ file
  match readFile fs path with
  | none =>
      { modelCalls := 0, promptSent := none, displayed := [],
        confirmAsked := none,
        outcome := .error (file ++ " does not exist"), fs := fs }
  | some content =>
      let prompt := enhance_prompt feature content
      let new_content := ask_llm backend prompt model
      if confirm then
        { modelCalls := 1, promptSent := some prompt,
          displayed := ["\nProposed enhancement:\n", new_content, "File updated."],
          confirmAsked := some false, outcome := .ok .applied,
          fs := writeFile fs path new_content }
      else
        { modelCalls := 1, promptSent := some prompt,
          displayed := ["\nProposed enhancement:\n", new_content, "No changes made."],
          confirmAsked := some false, outcome := .ok .discarded, fs := fs }

/-! ### Python AST model and `_summarise_python_file`

The fragment of Python's `ast` module that `_summarise_python_file`
inspects: a module body is a statement list; the statements the code
distinguishes are `ast.ClassDef` and `ast.FunctionDef` (each with a name
and a nested body), a bare string-constant expression statement (the
shape `ast.get_docstring` reads off the first body element), and
anything else. `ast.parse` itself is external and is a `PyParser`
parameter; `ast.get_docstring`'s whitespace clean-up of the docstring
text is not modelled, since no claim depends on intra-string
whitespace. -/

inductive PyStmt where
  | classDef (name : String) (body : List PyStmt)
  | funcDef (name : String) (body : List PyStmt)
  | exprStr (s : String)
  | other
deriving Repr

/-- `ast.Module`: a top-level statement list. -/
structure PyModule where
  body : List PyStmt
deriving Repr

/-- `ast.parse` composed with reading: produces a tree or fails
(`SyntaxError` etc.). -/
abbrev PyParser := String → Option PyModule

/-- `ast.get_docstring(tree)`: the string constant heading the module
body, if any. -/
def getDocstring (m : PyModule) : Option String :=
  match m.body with
  | PyStmt.exprStr s :: _ => some s
  | _ => none

/-- Python line-break characters recognised by `str.splitlines`. -/
def isPyLineBreak (c : Char) : Bool :=
  c = '\n' || c = '\r' || c = '\x0b' || c = '\x0c' ||
    c = '\x1c' || c = '\x1d' || c = '\x1e' || c = '\x85' ||
    c = '\u2028' || c = '\u2029'

/-- `doc.splitlines()[0]` for nonempty `doc`: the longest break-free
leading segment. -/
def pyFirstLine (s : String) : String :=
  s.takeWhile (fun c => !isPyLineBreak c)

/-- The name of a top-level statement when it is an `ast.ClassDef`. -/
def className? : PyStmt → Option String
  | .classDef n _ => some n
  | _ => none

/-- The name of a top-level statement when it is an `ast.FunctionDef`. -/
def funcName? : PyStmt → Option String
  | .funcDef n _ => some n
  | _ => none

/-- The `parts` list of `_summarise_python_file` (lines 26–35): the
docstring's first line when the docstring is present and nonempty, then
the comma-joined top-level class names when any, then the comma-joined
top-level function names when any. -/
def summariseParts (m : PyModule) : List String :=
  let classes := m.body.filterMap className?
  let funcs := m.body.filterMap funcName?
  (match getDocstring m with
    | some d => if d = "" then [] else [pyFirstLine d]
    | none => []) ++
  (if classes = [] then [] else ["classes: " ++ String.intercalate ", " classes]) ++
  (if funcs = [] then [] else ["functions: " ++ String.intercalate ", " funcs])

/-- `"; ".join(parts)` (line 36). -/
def summariseTree (m : PyModule) : String :=
  String.intercalate "; " (summariseParts m)

/-- The name of a top-level statement when it is any definition
(class or function); used to express "file order" across the two
collected name lists. -/
def topDefName? : PyStmt → Option String
  | .classDef n _ => some n
  | .funcDef n _ => some n
  | _ => none

/-- Forget the nested body of a top-level statement, keeping its
constructor and name; the summary only reads `tree.body` itself, so it
cannot depend on anything below the top level. -/
def stripNested : PyStmt → PyStmt
  | .classDef n _ => .classDef n []
  | .funcDef n _ => .funcDef n []
  | s => s

/-- `_summarise_python_file` (lines 18–36): read the file and parse it;
on any failure (missing/unreadable file or syntax error) return the
sentinel text; otherwise summarise the tree. Total: never raises. -/
def summarise_python_file (parse : PyParser) (fs : FS) (p : String) : String :=
  match readFile fs p with
  | none => "Could not parse file"
  | some src =>
      match parse src with
      | none => "Could not parse file"
      | some tree => summariseTree tree

/-! ### The `describe` command

`sorted(path.rglob("*.py"))` is modelled as: the paths in the filesystem
that lie under the root and end in `.py`, sorted; Python's ordering of
`Path` values is modelled as the string order on the full path (no claim
depends on the precise order). `relative_to` drops the root plus the
separator. -/

/-- Insert a string into a sorted list of strings. -/
def insertSorted (x : String) : List String → List String
  | [] => [x]
  | y :: ys => if x ≤ y then x :: y :: ys else y :: insertSorted x ys

/-- Insertion sort on strings, modelling `sorted(...)`. -/
def sortStrings : List String → List String
  | [] => []
  | x :: xs => insertSorted x (sortStrings xs)

/-- `sorted(path.rglob("*.py"))`: the sorted `.py` paths under `root`.
The path-pattern test is expressed on the character lists so that it
computes by structural recursion: `p` lies under `root` when `root ++ "/"`
is a prefix of `p`, and matches `*.py` when `.py` is a suffix of `p`. -/
def describePyPaths (fs : FS) (root : String) : List String :=
  sortStrings ((fs.filter
    (fun e => (root ++ "/").data.isPrefixOf e.1.data
      && ".py".data.isSuffixOf e.1.data)).map (fun e => e.1))

/-- `py_file.relative_to(path)`: the path with the root and separator
removed. -/
def relTo (root p : String) : String :=
  p.drop (root.length + 1)

/-- One rendered snapshot line, `f"{rel}: {summary}"` (line 66). -/
def describeLine (parse : PyParser) (fs : FS) (root p : String) : String :=
  relTo root p ++ ": " ++ summarise_python_file parse fs p

/-- The `summaries` list of `describe` (lines 62–66). -/
def describeSummaries (parse : PyParser) (fs : FS) (root : String) : List String :=
  (describePyPaths fs root).map (describeLine parse fs root)

/-- Observable trace of one `describe` execution. -/
structure DescribeRun where
  modelCalls : Nat
  promptSent : String
  displayed : List String
  fs : FS

/-- The `describe` command (lines 52–76): take the first 400 characters
of `README.md` when present, render one line per `.py` file, build the
description prompt, call the model once and display its answer. No
write. -/
def describe (parse : PyParser) (backend : Backend) (fs : FS)
    (root model : String) : DescribeRun :=
  let snippet := match readFile fs (root ++ "/README.md") with
    | some t => t.take 400
    | none => ""
  let prompt :=
    "Provide an overall description of this project using the README snippet "
      ++ "and summaries of each Python file.\n\nREADME:\n"
      ++ snippet
      ++ "\n\nFile summaries:\n"
      ++ String.intercalate "\n" (describeSummaries parse fs root)
  let out := ask_llm backend prompt model
  { modelCalls := 1, promptSent := prompt, displayed := [out], fs := fs }

/-! ### Helper lemmas -/

/-- Searching a list with the entries at path `p` filtered out is the
same as searching the original list, when the key looked up is not `p`. -/
theorem find?_filter_ne (fs : FS) (p q : String) (h : ¬ q = p) :
    (fs.filter (fun e => ¬ e.1 = p)).find? (fun e => e.1 = q)
      = fs.find? (fun e => e.1 = q) := by
  induction fs with
  | nil => rfl
  | cons e tl ih =>
    by_cases he : e.1 = p
    · have hq : ¬ e.1 = q := fun hh => h (by rw [← hh, he])
      rw [List.filter_cons_of_neg (by simpa using he),
        List.find?_cons_of_neg _ (by simpa using hq), ih]
    · rw [List.filter_cons_of_pos (by simpa using he)]
      by_cases hq : e.1 = q
      · rw [List.find?_cons_of_pos _ (by simpa using hq),
          List.find?_cons_of_pos _ (by simpa using hq)]
      · rw [List.find?_cons_of_neg _ (by simpa using hq),
          List.find?_cons_of_neg _ (by simpa using hq), ih]

/-- Reading after a write: the written path holds the new text, every
other path is untouched. -/
theorem readFile_writeFile (fs : FS) (p t q : String) :
    readFile (writeFile fs p t) q = if q = p then some t else readFile fs q := by
  by_cases h : q = p
  · subst h
    simp [readFile, writeFile]
  · rw [if_neg h]
    unfold readFile writeFile
    rw [List.find?_cons_of_neg _ (by simpa using fun hh => h hh.symm)]
    rw [find?_filter_ne _ _ _ h]

/-- Membership in an `insertSorted` result. -/
theorem mem_insertSorted {y x : String} {l : List String} :
    y ∈ insertSorted x l ↔ y = x ∨ y ∈ l := by
  induction l with
  | nil => simp [insertSorted]
  | cons z zs ih =>
    unfold insertSorted
    by_cases h : x ≤ z
    · simp [h]
    · simp [h, ih]
      tauto

/-- `sortStrings` permutes and in particular preserves membership. -/
theorem mem_sortStrings {y : String} {l : List String} :
    y ∈ sortStrings l ↔ y ∈ l := by
  induction l with
  | nil => simp [sortStrings]
  | cons z zs ih => simp [sortStrings, mem_insertSorted, ih]

/-! ### Claim theorems -/

/-- Claim C4: for every prompt and model identifier, the Model Gateway
never raises past its boundary (`ask_llm` is a total function into
`String`, with failures as values); whenever the backend call raises any
error, the returned value embeds the underlying error's description and
contains the string "Error communicating". -/
theorem c4_gateway_failure_value (backend : Backend) (prompt model exc : String)
    (h : backend model prompt = .error exc) :
    ask_llm backend prompt model = "Error communicating with Ollama: " ++ exc ∧
    ∃ rest, ask_llm backend prompt model = "Error communicating" ++ rest := by
  have hv : ask_llm backend prompt model = "Error communicating with Ollama: " ++ exc := by
    unfold ask_llm
    rw [h]
  refine ⟨hv, " with Ollama: " ++ exc, ?_⟩
  rw [hv, ← String.append_assoc]
  have hsplit : ("Error communicating with Ollama: " : String)
      = "Error communicating" ++ " with Ollama: " := by decide
  rw [hsplit]

/-- Concrete run of `c4_gateway_failure_value` on a backend that raises
a timeout-like error. -/
theorem c4_witness :
    ask_llm (fun _ _ => Except.error "timeout") "p" "llama3"
        = "Error communicating with Ollama: " ++ "timeout" ∧
    ∃ rest, ask_llm (fun _ _ => Except.error "timeout") "p" "llama3"
        = "Error communicating" ++ rest :=
  c4_gateway_failure_value (fun _ _ => Except.error "timeout") "p" "llama3" "timeout" rfl

/-- Claim C9: a backend response with no generated text yields the empty
string — the same value a Success with empty text yields — and not a
failure-shaped message: it does not start with "Error communicating". -/
theorem c9_empty_success (backend : Backend) (prompt model : String)
    (h : backend model prompt = .ok none ∨ backend model prompt = .ok (some "")) :
    ask_llm backend prompt model = "" ∧
    ¬ ∃ rest, ask_llm backend prompt model = "Error communicating" ++ rest := by
  have hv : ask_llm backend prompt model = "" := by
    unfold ask_llm
    rcases h with h | h <;> rw [h] <;> rfl
  refine ⟨hv, ?_⟩
  rintro ⟨rest, hr⟩
  rw [hv] at hr
  have hlen := congrArg String.length hr
  rw [String.length_append] at hlen
  have h0 : ("" : String).length = 0 := rfl
  have h19 : ("Error communicating" : String).length = 19 := rfl
  rw [h0, h19] at hlen
  omega

/-- Concrete run of `c9_empty_success` on a backend whose response
dictionary has no `response` field. -/
theorem c9_witness :
    ask_llm (fun _ _ => Except.ok none) "p" "llama3" = "" ∧
    ¬ ∃ rest, ask_llm (fun _ _ => Except.ok none) "p" "llama3"
        = "Error communicating" ++ rest :=
  c9_empty_success (fun _ _ => Except.ok none) "p" "llama3" (Or.inl rfl)

/-- Claim C5: for every existing target file and every operation kind,
the prompt actually sent to the model is built from the file's content
and embeds that exact content as a contiguous substring, with no
truncation. -/
theorem c5_prompt_embeds_content (backend : Backend) (fs : FS)
    (root file instruction feature model content : String) (confirm : Bool)
    (h : readFile fs (root ++ "/" ++ file) = some content) :
    ((change backend fs root file instruction model confirm).promptSent
        = some (change_prompt instruction content) ∧
      ∃ a b, change_prompt instruction content = a ++ content ++ b) ∧
    ((fix backend fs root file model confirm).promptSent
        = some (fix_prompt content) ∧
      ∃ a b, fix_prompt content = a ++ content ++ b) ∧
    ((enhance backend fs root file feature model confirm).promptSent
        = some (enhance_prompt feature content) ∧
      ∃ a b, enhance_prompt feature content = a ++ content ++ b) := by
  refine ⟨⟨?_, changeIntro instruction, changeClosing, rfl⟩,
    ⟨?_, fixIntro, "", by rw [String.append_empty]; rfl⟩,
    ⟨?_, enhanceIntro feature, enhanceClosing, rfl⟩⟩ <;>
      cases confirm <;> simp [change, fix, enhance, h]

/-- Concrete run of `c5_prompt_embeds_content` on a one-file project. -/
theorem c5_witness :
    ((change (fun _ _ => Except.ok (some "out")) [("/p/a.py", "print(1)")]
        "/p" "a.py" "inst" "llama3" false).promptSent
        = some (change_prompt "inst" "print(1)") ∧
      ∃ a b, change_prompt "inst" "print(1)" = a ++ "print(1)" ++ b) ∧
    ((fix (fun _ _ => Except.ok (some "out")) [("/p/a.py", "print(1)")]
        "/p" "a.py" "llama3" false).promptSent
        = some (fix_prompt "print(1)") ∧
      ∃ a b, fix_prompt "print(1)" = a ++ "print(1)" ++ b) ∧
    ((enhance (fun _ _ => Except.ok (some "out")) [("/p/a.py", "print(1)")]
        "/p" "a.py" "feat" "llama3" false).promptSent
        = some (enhance_prompt "feat" "print(1)") ∧
      ∃ a b, enhance_prompt "feat" "print(1)" = a ++ "print(1)" ++ b) :=
  c5_prompt_embeds_content (fun _ _ => Except.ok (some "out"))
    [("/p/a.py", "print(1)")] "/p" "a.py" "inst" "feat" "llama3" "print(1)" false
    (by decide)

/-- Claim C6 counterexample: the `enhance` prompt does not end with the
`change` closing directive — the two closing directives differ
("modified" versus "enhanced"), refuting "the enhance-by-feature prompt
ends with the same closing directive as modify-by-instruction" at the
concrete feature "logging" and file content "pass". -/
theorem c6_counterexample :
    ¬ changeClosing.data <:+ (enhance_prompt "logging" "pass").data := by decide

/-- Claim C6 amended: for every fixed file content, the three operation
kinds produce prompts that differ only in their fixed framing text (the
embedded content is identical and the framing pieces do not depend on
it); the enhance-by-feature closing directive has the same shape as the
modify-by-instruction one but reads "enhanced" where the latter reads
"modified". -/
theorem c6_prompt_framing (content instruction feature : String) :
    change_prompt instruction content
        = changeIntro instruction ++ content ++ changeClosing ∧
    fix_prompt content = fixIntro ++ content ∧
    enhance_prompt feature content
        = enhanceIntro feature ++ content ++ enhanceClosing ∧
    changeClosing = "\n---\nReturn only the full " ++ "modified" ++ " file." ∧
    enhanceClosing = "\n---\nReturn only the full " ++ "enhanced" ++ " file." :=
  ⟨rfl, rfl, rfl, by decide, by decide⟩

/-- Claim C1 counterexample: on a Failure result the code does request a
confirmation (default No) and, when the collaborator confirms, does
write — the failure message itself — into the target file, and returns
the applied outcome; this refutes "no confirmation is requested, and no
file write occurs for any confirmation value" at a concrete backend
error. -/
theorem c1_counterexample :
    (change (fun _ _ => Except.error "timeout") [("/p/a.py", "print(1)")]
        "/p" "a.py" "inst" "llama3" true).confirmAsked = some false ∧
    readFile (change (fun _ _ => Except.error "timeout") [("/p/a.py", "print(1)")]
        "/p" "a.py" "inst" "llama3" true).fs ("/p" ++ "/" ++ "a.py")
      = some "Error communicating with Ollama: timeout" ∧
    (change (fun _ _ => Except.error "timeout") [("/p/a.py", "print(1)")]
        "/p" "a.py" "inst" "llama3" true).outcome = Except.ok Outcome.applied := by
  refine ⟨rfl, by decide, rfl⟩

/-- Claim C1 amended: when the backend fails, the failure message is
displayed and a confirmation with default No is requested just as for a
success; with confirmation false (the default) the filesystem is
unchanged, while with confirmation true the failure message itself is
written over the target file. -/
theorem c1_failure_offered (backend : Backend) (fs : FS)
    (root file instruction model exc content : String)
    (hread : readFile fs (root ++ "/" ++ file) = some content)
    (herr : backend model (change_prompt instruction content) = .error exc) :
    (change backend fs root file instruction model false).displayed
        = ["\nGenerated change:\n",
            "Error communicating with Ollama: " ++ exc, "No changes made."] ∧
    (change backend fs root file instruction model false).confirmAsked = some false ∧
    (change backend fs root file instruction model false).outcome
        = Except.ok Outcome.discarded ∧
    (change backend fs root file instruction model false).fs = fs ∧
    (change backend fs root file instruction model true).fs
        = writeFile fs (root ++ "/" ++ file)
            ("Error communicating with Ollama: " ++ exc) := by
  refine ⟨?_, ?_, ?_, ?_, ?_⟩ <;> simp [change, hread, ask_llm, herr]

/-- Concrete run of `c1_failure_offered` on a backend that raises. -/
theorem c1_witness :
    (change (fun _ _ => Except.error "timeout") [("/p/a.py", "print(1)")]
        "/p" "a.py" "inst" "llama3" false).displayed
        = ["\nGenerated change:\n",
            "Error communicating with Ollama: " ++ "timeout", "No changes made."] ∧
    (change (fun _ _ => Except.error "timeout") [("/p/a.py", "print(1)")]
        "/p" "a.py" "inst" "llama3" false).confirmAsked = some false ∧
    (change (fun _ _ => Except.error "timeout") [("/p/a.py", "print(1)")]
        "/p" "a.py" "inst" "llama3" false).outcome = Except.ok Outcome.discarded ∧
    (change (fun _ _ => Except.error "timeout") [("/p/a.py", "print(1)")]
        "/p" "a.py" "inst" "llama3" false).fs = [("/p/a.py", "print(1)")] ∧
    (change (fun _ _ => Except.error "timeout") [("/p/a.py", "print(1)")]
        "/p" "a.py" "inst" "llama3" true).fs
        = writeFile [("/p/a.py", "print(1)")] ("/p" ++ "/" ++ "a.py")
            ("Error communicating with Ollama: " ++ "timeout") :=
  c1_failure_offered (fun _ _ => Except.error "timeout") [("/p/a.py", "print(1)")]
    "/p" "a.py" "inst" "llama3" "timeout" "print(1)" (by decide) rfl

/-- Claim C2 counterexample: an existing target file without a
recognized source extension (`notes.txt`) is not rejected — the model
is invoked once, not zero times, refuting "the Model Gateway invocation
count for such a request is 0". -/
theorem c2_counterexample :
    (change (fun _ _ => Except.ok (some "out")) [("/p/notes.txt", "hello")]
        "/p" "notes.txt" "rewrite" "llama3" false).modelCalls = 1 ∧
    (change (fun _ _ => Except.ok (some "out")) [("/p/notes.txt", "hello")]
        "/p" "notes.txt" "rewrite" "llama3" false).outcome
        = Except.ok Outcome.discarded := by
  refine ⟨rfl, rfl⟩

/-- Claim C2 amended: only existence is checked before the model call —
for each of `change`, `fix` and `enhance`, a request whose target file
does not exist is rejected at construction time with a `BadParameter`
error, no model call is made (invocation count 0), and the filesystem
is untouched; no extension check is performed. -/
theorem c2_missing_file_rejected (backend : Backend) (fs : FS)
    (root file instruction feature model : String) (confirm : Bool)
    (h : readFile fs (root ++ "/" ++ file) = none) :
    ((change backend fs root file instruction model confirm).modelCalls = 0 ∧
      (change backend fs root file instruction model confirm).outcome
        = Except.error (file ++ " does not exist") ∧
      (change backend fs root file instruction model confirm).fs = fs) ∧
    ((fix backend fs root file model confirm).modelCalls = 0 ∧
      (fix backend fs root file model confirm).outcome
        = Except.error (file ++ " does not exist") ∧
      (fix backend fs root file model confirm).fs = fs) ∧
    ((enhance backend fs root file feature model confirm).modelCalls = 0 ∧
      (enhance backend fs root file feature model confirm).outcome
        = Except.error (file ++ " does not exist") ∧
      (enhance backend fs root file feature model confirm).fs = fs) := by
  refine ⟨⟨?_, ?_, ?_⟩, ⟨?_, ?_, ?_⟩, ⟨?_, ?_, ?_⟩⟩ <;>
    simp [change, fix, enhance, h]

/-- Concrete run of `c2_missing_file_rejected` on a project that lacks
the requested file. -/
theorem c2_witness :
    ((change (fun _ _ => Except.ok (some "out")) [("/p/a.py", "print(1)")]
        "/p" "missing.py" "inst" "llama3" true).modelCalls = 0 ∧
      (change (fun _ _ => Except.ok (some "out")) [("/p/a.py", "print(1)")]
        "/p" "missing.py" "inst" "llama3" true).outcome
        = Except.error ("missing.py" ++ " does not exist") ∧
      (change (fun _ _ => Except.ok (some "out")) [("/p/a.py", "print(1)")]
        "/p" "missing.py" "inst" "llama3" true).fs = [("/p/a.py", "print(1)")]) ∧
    ((fix (fun _ _ => Except.ok (some "out")) [("/p/a.py", "print(1)")]
        "/p" "missing.py" "llama3" true).modelCalls = 0 ∧
      (fix (fun _ _ => Except.ok (some "out")) [("/p/a.py", "print(1)")]
        "/p" "missing.py" "llama3" true).outcome
        = Except.error ("missing.py" ++ " does not exist") ∧
      (fix (fun _ _ => Except.ok (some "out")) [("/p/a.py", "print(1)")]
        "/p" "missing.py" "llama3" true).fs = [("/p/a.py", "print(1)")]) ∧
    ((enhance (fun _ _ => Except.ok (some "out")) [("/p/a.py", "print(1)")]
        "/p" "missing.py" "feat" "llama3" true).modelCalls = 0 ∧
      (enhance (fun _ _ => Except.ok (some "out")) [("/p/a.py", "print(1)")]
        "/p" "missing.py" "feat" "llama3" true).outcome
        = Except.error ("missing.py" ++ " does not exist") ∧
      (enhance (fun _ _ => Except.ok (some "out")) [("/p/a.py", "print(1)")]
        "/p" "missing.py" "feat" "llama3" true).fs = [("/p/a.py", "print(1)")]) :=
  c2_missing_file_rejected (fun _ _ => Except.ok (some "out"))
    [("/p/a.py", "print(1)")] "/p" "missing.py" "inst" "feat" "llama3" true
    (by decide)

/-- Claim C3: on a Success result each of `change`, `fix` and `enhance`
requests a boolean confirmation whose default answer is No, and with
confirmation false (or left at the default) the command reports that no
changes were made (the Discarded outcome) and the filesystem — in
particular the target file's content — is exactly what it was before. -/
theorem c3_discard_keeps_file (backend : Backend) (fs : FS)
    (root file instruction feature model content : String) (r : Option String)
    (hread : readFile fs (root ++ "/" ++ file) = some content)
    (_hok : backend model (change_prompt instruction content) = .ok r) :
    ((change backend fs root file instruction model false).confirmAsked = some false ∧
      (change backend fs root file instruction model false).outcome
        = Except.ok Outcome.discarded ∧
      (change backend fs root file instruction model false).fs = fs) ∧
    ((fix backend fs root file model false).confirmAsked = some false ∧
      (fix backend fs root file model false).outcome = Except.ok Outcome.discarded ∧
      (fix backend fs root file model false).fs = fs) ∧
    ((enhance backend fs root file feature model false).confirmAsked = some false ∧
      (enhance backend fs root file feature model false).outcome
        = Except.ok Outcome.discarded ∧
      (enhance backend fs root file feature model false).fs = fs) := by
  refine ⟨⟨?_, ?_, ?_⟩, ⟨?_, ?_, ?_⟩, ⟨?_, ?_, ?_⟩⟩ <;>
    simp [change, fix, enhance, hread]

/-- Concrete run of `c3_discard_keeps_file` on a backend that succeeds. -/
theorem c3_witness :
    ((change (fun _ _ => Except.ok (some "new")) [("/p/a.py", "print(1)")]
        "/p" "a.py" "inst" "llama3" false).confirmAsked = some false ∧
      (change (fun _ _ => Except.ok (some "new")) [("/p/a.py", "print(1)")]
        "/p" "a.py" "inst" "llama3" false).outcome = Except.ok Outcome.discarded ∧
      (change (fun _ _ => Except.ok (some "new")) [("/p/a.py", "print(1)")]
        "/p" "a.py" "inst" "llama3" false).fs = [("/p/a.py", "print(1)")]) ∧
    ((fix (fun _ _ => Except.ok (some "new")) [("/p/a.py", "print(1)")]
        "/p" "a.py" "llama3" false).confirmAsked = some false ∧
      (fix (fun _ _ => Except.ok (some "new")) [("/p/a.py", "print(1)")]
        "/p" "a.py" "llama3" false).outcome = Except.ok Outcome.discarded ∧
      (fix (fun _ _ => Except.ok (some "new")) [("/p/a.py", "print(1)")]
        "/p" "a.py" "llama3" false).fs = [("/p/a.py", "print(1)")]) ∧
    ((enhance (fun _ _ => Except.ok (some "new")) [("/p/a.py", "print(1)")]
        "/p" "a.py" "feat" "llama3" false).confirmAsked = some false ∧
      (enhance (fun _ _ => Except.ok (some "new")) [("/p/a.py", "print(1)")]
        "/p" "a.py" "feat" "llama3" false).outcome = Except.ok Outcome.discarded ∧
      (enhance (fun _ _ => Except.ok (some "new")) [("/p/a.py", "print(1)")]
        "/p" "a.py" "feat" "llama3" false).fs = [("/p/a.py", "print(1)")]) :=
  c3_discard_keeps_file (fun _ _ => Except.ok (some "new"))
    [("/p/a.py", "print(1)")] "/p" "a.py" "inst" "feat" "llama3" "print(1)"
    (some "new") (by decide) rfl

/-- Claim C10: `describe` performs no file mutation — the filesystem
after a `describe` run is exactly the one before; each of `change`,
`fix` and `enhance` leaves the filesystem unchanged unless the apply is
confirmed, and even a confirmed apply touches no path other than the
single target file. -/
theorem c10_frame (parse : PyParser) (backend : Backend) (fs : FS)
    (root file instruction feature model q : String) (confirm : Bool)
    (hq : q ≠ root ++ "/" ++ file) :
    (describe parse backend fs root model).fs = fs ∧
    ((change backend fs root file instruction model false).fs = fs ∧
      (fix backend fs root file model false).fs = fs ∧
      (enhance backend fs root file feature model false).fs = fs) ∧
    (readFile (change backend fs root file instruction model confirm).fs q
        = readFile fs q ∧
      readFile (fix backend fs root file model confirm).fs q = readFile fs q ∧
      readFile (enhance backend fs root file feature model confirm).fs q
        = readFile fs q) := by
  have hother : ∀ t, readFile (writeFile fs (root ++ "/" ++ file) t) q = readFile fs q := by
    intro t
    rw [readFile_writeFile, if_neg hq]
  refine ⟨rfl, ⟨?_, ?_, ?_⟩, ⟨?_, ?_, ?_⟩⟩ <;>
    rcases hcase : readFile fs (root ++ "/" ++ file) with _ | content <;>
      cases confirm <;> simp [change, fix, enhance, hcase, hother]

/-- Concrete run of `c10_frame`: a confirmed `change` of one file leaves
the other file's content intact. -/
theorem c10_witness :
    (describe (fun _ => none) (fun _ _ => Except.ok (some "out"))
        [("/p/a.py", "print(1)"), ("/p/b.py", "print(2)")] "/p" "llama3").fs
      = [("/p/a.py", "print(1)"), ("/p/b.py", "print(2)")] ∧
    ((change (fun _ _ => Except.ok (some "out"))
        [("/p/a.py", "print(1)"), ("/p/b.py", "print(2)")]
        "/p" "a.py" "inst" "llama3" false).fs
      = [("/p/a.py", "print(1)"), ("/p/b.py", "print(2)")] ∧
      (fix (fun _ _ => Except.ok (some "out"))
        [("/p/a.py", "print(1)"), ("/p/b.py", "print(2)")]
        "/p" "a.py" "llama3" false).fs
      = [("/p/a.py", "print(1)"), ("/p/b.py", "print(2)")] ∧
      (enhance (fun _ _ => Except.ok (some "out"))
        [("/p/a.py", "print(1)"), ("/p/b.py", "print(2)")]
        "/p" "a.py" "feat" "llama3" false).fs
      = [("/p/a.py", "print(1)"), ("/p/b.py", "print(2)")]) ∧
    (readFile (change (fun _ _ => Except.ok (some "out"))
        [("/p/a.py", "print(1)"), ("/p/b.py", "print(2)")]
        "/p" "a.py" "inst" "llama3" true).fs "/p/b.py"
      = readFile [("/p/a.py", "print(1)"), ("/p/b.py", "print(2)")] "/p/b.py" ∧
      readFile (fix (fun _ _ => Except.ok (some "out"))
        [("/p/a.py", "print(1)"), ("/p/b.py", "print(2)")]
        "/p" "a.py" "llama3" true).fs "/p/b.py"
      = readFile [("/p/a.py", "print(1)"), ("/p/b.py", "print(2)")] "/p/b.py" ∧
      readFile (enhance (fun _ _ => Except.ok (some "out"))
        [("/p/a.py", "print(1)"), ("/p/b.py", "print(2)")]
        "/p" "a.py" "feat" "llama3" true).fs "/p/b.py"
      = readFile [("/p/a.py", "print(1)"), ("/p/b.py", "print(2)")] "/p/b.py") :=
  c10_frame (fun _ => none) (fun _ _ => Except.ok (some "out"))
    [("/p/a.py", "print(1)"), ("/p/b.py", "print(2)")]
    "/p" "a.py" "inst" "feat" "llama3" "/p/b.py" true (by decide)

/-- Forgetting nested bodies changes no top-level class name. -/
theorem className?_stripNested (s : PyStmt) :
    className? (stripNested s) = className? s := by
  cases s <;> rfl

/-- Forgetting nested bodies changes no top-level function name. -/
theorem funcName?_stripNested (s : PyStmt) :
    funcName? (stripNested s) = funcName? s := by
  cases s <;> rfl

/-- Forgetting nested bodies does not affect the module docstring. -/
theorem getDocstring_stripNested (m : PyModule) :
    getDocstring ⟨m.body.map stripNested⟩ = getDocstring m := by
  rcases m with ⟨body⟩
  cases body with
  | nil => rfl
  | cons s tl => cases s <;> rfl

/-- The summary depends only on the top level of the module body: it is
invariant under erasing every nested body. -/
theorem summariseTree_stripNested (m : PyModule) :
    summariseTree ⟨m.body.map stripNested⟩ = summariseTree m := by
  have h1 : className? ∘ stripNested = className? := funext className?_stripNested
  have h2 : funcName? ∘ stripNested = funcName? := funext funcName?_stripNested
  unfold summariseTree summariseParts
  rw [getDocstring_stripNested, List.filterMap_map, List.filterMap_map, h1, h2]

/-- The collected class names, in order, form a sublist of all top-level
definition names in file order. -/
theorem classNames_sublist_topDefNames (l : List PyStmt) :
    List.Sublist (l.filterMap className?) (l.filterMap topDefName?) := by
  induction l with
  | nil => simp
  | cons s tl ih =>
    cases s with
    | classDef n b =>
        simpa [className?, topDefName?, List.filterMap_cons] using ih.cons₂ n
    | funcDef n b =>
        simpa [className?, topDefName?, List.filterMap_cons] using ih.cons n
    | exprStr s0 => simpa [className?, topDefName?, List.filterMap_cons] using ih
    | other => simpa [className?, topDefName?, List.filterMap_cons] using ih

/-- The collected function names, in order, form a sublist of all
top-level definition names in file order. -/
theorem funcNames_sublist_topDefNames (l : List PyStmt) :
    List.Sublist (l.filterMap funcName?) (l.filterMap topDefName?) := by
  induction l with
  | nil => simp
  | cons s tl ih =>
    cases s with
    | classDef n b =>
        simpa [funcName?, topDefName?, List.filterMap_cons] using ih.cons n
    | funcDef n b =>
        simpa [funcName?, topDefName?, List.filterMap_cons] using ih.cons₂ n
    | exprStr s0 => simpa [funcName?, topDefName?, List.filterMap_cons] using ih
    | other => simpa [funcName?, topDefName?, List.filterMap_cons] using ih

/-- A name is collected as a class exactly when a top-level class
definition carries it. -/
theorem mem_classNames {n : String} {l : List PyStmt} :
    n ∈ l.filterMap className? ↔ ∃ b, PyStmt.classDef n b ∈ l := by
  rw [List.mem_filterMap]
  constructor
  · rintro ⟨s, hs, hn⟩
    cases s with
    | classDef m b =>
        rw [className?] at hn
        cases hn
        exact ⟨b, hs⟩
    | funcDef m b => cases hn
    | exprStr s0 => cases hn
    | other => cases hn
  · rintro ⟨b, hb⟩
    exact ⟨.classDef n b, hb, rfl⟩

/-- A name is collected as a function exactly when a top-level function
definition carries it. -/
theorem mem_funcNames {n : String} {l : List PyStmt} :
    n ∈ l.filterMap funcName? ↔ ∃ b, PyStmt.funcDef n b ∈ l := by
  rw [List.mem_filterMap]
  constructor
  · rintro ⟨s, hs, hn⟩
    cases s with
    | funcDef m b =>
        rw [funcName?] at hn
        cases hn
        exact ⟨b, hs⟩
    | classDef m b => cases hn
    | exprStr s0 => cases hn
    | other => cases hn
  · rintro ⟨b, hb⟩
    exact ⟨.funcDef n b, hb, rfl⟩

/-- Claim C7: when a file's text cannot be read or parsed,
`_summarise_python_file` returns the fixed sentinel and never raises
(it is a total function into `String`), and the rendered snapshot line
for such a file in `describe` is its relative path followed by the
sentinel text. -/
theorem c7_parse_sentinel (parse : PyParser) (fs : FS) (root p : String)
    (h : readFile fs p = none ∨ ∃ src, readFile fs p = some src ∧ parse src = none)
    (hp : p ∈ describePyPaths fs root) :
    summarise_python_file parse fs p = "Could not parse file" ∧
    relTo root p ++ ": " ++ "Could not parse file"
        ∈ describeSummaries parse fs root := by
  have hs : summarise_python_file parse fs p = "Could not parse file" := by
    rcases h with h | ⟨src, h1, h2⟩
    · simp [summarise_python_file, h]
    · simp [summarise_python_file, h1, h2]
  refine ⟨hs, ?_⟩
  unfold describeSummaries
  exact List.mem_map.mpr ⟨p, hp, by rw [describeLine, hs]⟩

/-- Concrete run of `c7_parse_sentinel` on a file whose content the
parser rejects. -/
theorem c7_witness :
    summarise_python_file (fun _ => none) [("/p/a.py", "def (")] "/p/a.py"
        = "Could not parse file" ∧
    relTo "/p" "/p/a.py" ++ ": " ++ "Could not parse file"
        ∈ describeSummaries (fun _ => none) [("/p/a.py", "def (")] "/p" :=
  c7_parse_sentinel (fun _ => none) [("/p/a.py", "def (")] "/p" "/p/a.py"
    (Or.inr ⟨"def (", rfl, rfl⟩) (by decide)

/-- Claim C8: for every syntactically valid module, the summary collects
the docstring's first line (when a nonempty docstring heads the module),
the top-level class names and the top-level function names, each list in
file order (a sublist of the top-level definitions in file order), and a
name is collected exactly when a top-level definition carries it — so
nested or inner definitions are never collected (the summary is
invariant under erasing every nested body). -/
theorem c8_summary_extraction (m : PyModule) :
    summariseTree ⟨m.body.map stripNested⟩ = summariseTree m ∧
    List.Sublist (m.body.filterMap className?) (m.body.filterMap topDefName?) ∧
    List.Sublist (m.body.filterMap funcName?) (m.body.filterMap topDefName?) ∧
    (∀ n, n ∈ m.body.filterMap className? ↔ ∃ b, PyStmt.classDef n b ∈ m.body) ∧
    (∀ n, n ∈ m.body.filterMap funcName? ↔ ∃ b, PyStmt.funcDef n b ∈ m.body) ∧
    (∀ d, getDocstring m = some d → d ≠ "" →
      (summariseParts m).head? = some (pyFirstLine d)) := by
  refine ⟨summariseTree_stripNested m, classNames_sublist_topDefNames m.body,
    funcNames_sublist_topDefNames m.body,
    fun n => mem_classNames, fun n => mem_funcNames, fun d hd hne => ?_⟩
  rcases m with ⟨body⟩
  cases body with
  | nil => simp [getDocstring] at hd
  | cons s tl =>
    cases s with
    | exprStr s0 =>
        have hs0 : s0 = d := by simpa [getDocstring] using hd
        subst hs0
        simp [summariseParts, getDocstring, hne]
    | classDef n b => simp [getDocstring] at hd
    | funcDef n b => simp [getDocstring] at hd
    | other => simp [getDocstring] at hd

/-- Concrete run of `c8_summary_extraction` on a module with a
docstring, one class containing a nested function, and one top-level
function. -/
theorem c8_witness :
    (summariseParts ⟨[PyStmt.exprStr "Doc line\nrest",
        PyStmt.classDef "A" [PyStmt.funcDef "nested" []],
        PyStmt.funcDef "main" []]⟩).head?
      = some (pyFirstLine "Doc line\nrest") ∧
    "A" ∈ ([PyStmt.exprStr "Doc line\nrest",
        PyStmt.classDef "A" [PyStmt.funcDef "nested" []],
        PyStmt.funcDef "main" []] : List PyStmt).filterMap className? ∧
    "main" ∈ ([PyStmt.exprStr "Doc line\nrest",
        PyStmt.classDef "A" [PyStmt.funcDef "nested" []],
        PyStmt.funcDef "main" []] : List PyStmt).filterMap funcName? := by
  have h := c8_summary_extraction ⟨[PyStmt.exprStr "Doc line\nrest",
    PyStmt.classDef "A" [PyStmt.funcDef "nested" []],
    PyStmt.funcDef "main" []]⟩
  refine ⟨h.2.2.2.2.2 "Doc line\nrest" rfl (by decide), ?_, ?_⟩
  · exact (h.2.2.2.1 "A").mpr
      ⟨[PyStmt.funcDef "nested" []], List.Mem.tail _ (List.Mem.head _)⟩
  · exact (h.2.2.2.2.1 "main").mpr
      ⟨[], List.Mem.tail _ (List.Mem.tail _ (List.Mem.head _))⟩

end CodeForge
